import Mathlib

/-!
Verification of the SnakeX terminal snake game (C++ sources).

The definitions below are a shallow embedding of the game logic of
`src/code/game.cpp` (the main program): `Position`, `Direction`, the
`Snake` class (body deque with head at the front, current/next heading,
single-shot growth flag), `Food::spawn` (modelled with an explicit
random-sample stream and fuel for the unbounded retry loop),
`GameBoard::isInsideBoundaries`, and the `Game` state with its
`update`, `restart` and game-over score bookkeeping.  A second, smaller
embedding (`PSnake`, `PGame`) follows the ncurses variant in
`src/unnamed/part_000`, which alone has the "waiting for first input"
state.
-/

namespace SnakeX

/-- `struct Position { int x, y; }` with structural equality
(`operator==` compares both coordinates). -/
structure Position where
  x : Int
  y : Int
deriving DecidableEq, Repr

/-- `enum Direction { UP, DOWN, LEFT, RIGHT, NONE }`. -/
inductive Direction where
  | UP
  | DOWN
  | LEFT
  | RIGHT
  | NONE
deriving DecidableEq, Repr

/-- The unit translation vector of a heading; `NONE` has no vector
(the `switch` in `Snake::move` returns early on `NONE`). -/
def Direction.delta : Direction → Option (Int × Int)
  | Direction.UP => some (0, -1)
  | Direction.DOWN => some (0, 1)
  | Direction.LEFT => some (-1, 0)
  | Direction.RIGHT => some (1, 0)
  | Direction.NONE => none

/-- The exact opposite of a movement direction (spec notion used by the
reversal-rejection rule; `NONE` is its own opposite, vacuously). -/
def Direction.opposite : Direction → Direction
  | Direction.UP => Direction.DOWN
  | Direction.DOWN => Direction.UP
  | Direction.LEFT => Direction.RIGHT
  | Direction.RIGHT => Direction.LEFT
  | Direction.NONE => Direction.NONE

/-- The `Snake` class state: body deque (front = head), committed
heading `current`, pending heading `next`, single-shot growth flag. -/
structure Snake where
  body : List Position
  current : Direction
  next : Direction
  growing : Bool

/-- `Snake::Snake(startX, startY)`: three horizontal cells, head at
`(startX, startY)`, heading right, no growth pending. -/
def Snake.create (startX startY : Int) : Snake :=
  { body := [⟨startX, startY⟩, ⟨startX - 1, startY⟩, ⟨startX - 2, startY⟩],
    current := Direction.RIGHT, next := Direction.RIGHT, growing := false }

/-- `Snake::getHead()`: `body.front()` (the body is never empty in any
program state; the default is irrelevant). -/
def Snake.getHead (s : Snake) : Position :=
  s.body.headD ⟨0, 0⟩

/-- `Snake::setDirection(d)`: reject (return early) when `d` is the
exact opposite of the committed heading, else record `d` as pending. -/
def Snake.setDirection (s : Snake) (d : Direction) : Snake :=
  if (d = Direction.UP ∧ s.current = Direction.DOWN) ∨
     (d = Direction.DOWN ∧ s.current = Direction.UP) ∨
     (d = Direction.LEFT ∧ s.current = Direction.RIGHT) ∨
     (d = Direction.RIGHT ∧ s.current = Direction.LEFT) then
    s
  else
    { s with next := d }

/-- `Snake::move()`: commit the pending direction (`current = next`),
then — unless the committed heading is `NONE`, in which case the
function returns with the body untouched — push the translated head at
the front and pop the tail unless growth is pending, consuming the
growth flag. -/
def Snake.move (s : Snake) : Snake :=
  match s.next.delta with
  | none => { s with current := s.next }
  | some (dx, dy) =>
    let head := s.getHead
    let newHead : Position := ⟨head.x + dx, head.y + dy⟩
    if s.growing then
      { s with current := s.next, body := newHead :: s.body, growing := false }
    else
      { s with current := s.next, body := (newHead :: s.body).dropLast }

/-- `Snake::grow()`: mark growth pending. -/
def Snake.grow (s : Snake) : Snake :=
  { s with growing := true }

/-- `Snake::checkSelfCollision()`: head equals some body cell at index
`≥ 1`. -/
def Snake.checkSelfCollision (s : Snake) : Bool :=
  decide (s.getHead ∈ s.body.tail)

/-- Snake states reachable through the class interface as the game uses
it: construction, `setDirection` with a movement direction (the only
calls `Game::handleInput` issues), `move`, and `grow`. -/
inductive Snake.Reach : Snake → Prop
  | create (x y : Int) : Snake.Reach (Snake.create x y)
  | dir {s : Snake} (d : Direction) (hd : d ≠ Direction.NONE) :
      Snake.Reach s → Snake.Reach (s.setDirection d)
  | mv {s : Snake} : Snake.Reach s → Snake.Reach s.move
  | gr {s : Snake} : Snake.Reach s → Snake.Reach s.grow

theorem Snake.reach_next_ne_none {s : Snake} (h : Snake.Reach s) :
    s.next ≠ Direction.NONE := by
  induction h with
  | create x y => simp [Snake.create]
  | dir d hd _ ih =>
      rename_i s' _
      unfold Snake.setDirection
      split
      · exact ih
      · exact hd
  | mv _ ih =>
      rename_i s' _
      unfold Snake.move
      cases hdel : s'.next.delta with
      | none => exact ih
      | some p =>
          obtain ⟨dx, dy⟩ := p
          by_cases hg : s'.growing = true <;> simp [hg, ih]
  | gr _ ih => exact ih

theorem Snake.move_current (s : Snake) : s.move.current = s.next := by
  unfold Snake.move
  cases hdel : s.next.delta with
  | none => rfl
  | some p =>
      obtain ⟨dx, dy⟩ := p
      by_cases hg : s.growing = true <;> simp [hg]

theorem Snake.move_next (s : Snake) : s.move.next = s.next := by
  unfold Snake.move
  cases hdel : s.next.delta with
  | none => rfl
  | some p =>
      obtain ⟨dx, dy⟩ := p
      by_cases hg : s.growing = true <;> simp [hg]

theorem Direction.delta_isSome_of_ne_none {d : Direction}
    (hd : d ≠ Direction.NONE) : ∃ v, d.delta = some v := by
  cases d <;> simp [Direction.delta] at hd ⊢

/-- **C1.** For every snake state arising through the game's use of the
`Snake` interface: a move with no growth pending preserves the body
length; a move with growth pending increases it by exactly one and
resets the flag, so a single `grow()` affects exactly one move. -/
theorem C1_move_length (s : Snake) (hs : Snake.Reach s) :
    (s.growing = false → s.move.body.length = s.body.length) ∧
    (s.growing = true → s.move.body.length = s.body.length + 1 ∧
      s.move.growing = false) := by
  obtain ⟨⟨dx, dy⟩, hdel⟩ :=
    Direction.delta_isSome_of_ne_none (Snake.reach_next_ne_none hs)
  constructor
  · intro hg
    unfold Snake.move
    rw [hdel]
    simp [hg, List.length_dropLast]
  · intro hg
    unfold Snake.move
    rw [hdel]
    simp [hg]

/-- Witness for C1 at a concrete reachable state: a freshly created
snake with growth pending has length 4 after the move and the flag is
consumed. -/
theorem C1_move_length_witness :
    ((Snake.create 5 5).grow).move.body.length =
      ((Snake.create 5 5).grow).body.length + 1 ∧
    ((Snake.create 5 5).grow).move.growing = false :=
  (C1_move_length ((Snake.create 5 5).grow)
    (Snake.Reach.gr (Snake.Reach.create 5 5))).2 rfl

/-- **C2.** For every direction `d ≠ NONE` and snake: if `d` is the
exact opposite of the committed heading, `setDirection d` is a complete
no-op (the pending slot keeps its value), and — given the invariant
that pending and committed headings agree between moves, which holds
after every `move` — the heading after the next `move` is the old
heading, not `d`; otherwise `d` is recorded as pending, the committed
heading is untouched by `setDirection`, and `d` becomes the heading
exactly at the next `move`. -/
theorem C2_setDirection_reversal (s : Snake) (d : Direction)
    (hd : d ≠ Direction.NONE) :
    (d = s.current.opposite →
      s.setDirection d = s ∧
      (s.next = s.current → (s.setDirection d).move.current = s.current)) ∧
    (d ≠ s.current.opposite →
      (s.setDirection d).next = d ∧
      (s.setDirection d).current = s.current ∧
      (s.setDirection d).move.current = d) := by
  constructor
  · intro hopp
    have hno : s.setDirection d = s := by
      unfold Snake.setDirection
      split
      · rfl
      · rename_i hcond
        exfalso
        cases d <;> cases hcur : s.current <;>
          simp [Direction.opposite, hcur] at hopp hd hcond ⊢
    refine ⟨hno, ?_⟩
    intro hsnap
    rw [hno, Snake.move_current, hsnap]
  · intro hopp
    have hrec : s.setDirection d = { s with next := d } := by
      unfold Snake.setDirection
      split
      · rename_i hcond
        exfalso
        rcases hcond with ⟨h1, h2⟩ | ⟨h1, h2⟩ | ⟨h1, h2⟩ | ⟨h1, h2⟩ <;>
          subst h1 <;> rw [h2] at hopp <;> simp [Direction.opposite] at hopp
      · rfl
    rw [hrec]
    refine ⟨rfl, rfl, ?_⟩
    rw [Snake.move_current]

/-- Witness for C2 at a concrete input: a snake heading right rejects a
LEFT request outright and still heads right after the next move. -/
theorem C2_setDirection_reversal_witness :
    (Snake.create 5 5).setDirection Direction.LEFT = Snake.create 5 5 ∧
    ((Snake.create 5 5).setDirection Direction.LEFT).move.current =
      Direction.RIGHT := by
  have h := C2_setDirection_reversal (Snake.create 5 5) Direction.LEFT
    (by decide)
  have hopp : Direction.LEFT = (Snake.create 5 5).current.opposite := rfl
  exact ⟨(h.1 hopp).1, (h.1 hopp).2 rfl⟩

/-- One sampling attempt of `Food::spawn`: `rand() % (maxX - 2) + 1`
for x and `rand() % (maxY - 2) + 1` for y, with the two `rand()` draws
of attempt `k` modelled as the pair `rng k`. -/
def spawnSample (rng : Nat → Nat × Nat) (k W H : Nat) : Position :=
  ⟨((rng k).1 % (W - 2) + 1 : Nat), ((rng k).2 % (H - 2) + 1 : Nat)⟩

/-- The retry loop of `Food::spawn(maxX, maxY, snakeBody)`: resample
until the position misses the snake body.  The C++ loop is unbounded;
`fuel` bounds the number of attempts in the embedding, `none` meaning
the loop has not terminated within `fuel` attempts.  Returns the found
position together with the next unused sample index (the advanced
`rand()` state). -/
def Food.spawnAux (rng : Nat → Nat × Nat) (W H : Nat)
    (snakeBody : List Position) : Nat → Nat → Option (Position × Nat)
  | _, 0 => none
  | k, fuel + 1 =>
    let p := spawnSample rng k W H
    if p ∈ snakeBody then Food.spawnAux rng W H snakeBody (k + 1) fuel
    else some (p, k + 1)

/-- `GameBoard::isInsideBoundaries(p)`:
`p.x > 0 && p.x < width - 1 && p.y > 0 && p.y < height - 1`. -/
def isInsideBoundaries (W H : Nat) (p : Position) : Bool :=
  decide (0 < p.x ∧ p.x < (W : Int) - 1 ∧ 0 < p.y ∧ p.y < (H : Int) - 1)

/-- `const int speedStep = 8` in `Game`. -/
def speedStep : Nat := 8

/-- `const int minSpeedMs = 30` in `Game`. -/
def minSpeedMs : Nat := 30

/-- `speedMs(140)` in the `Game` constructor (and `speedMs = 140` in
`Game::restart`). -/
def initialSpeedMs : Nat := 140

/-- The `Game` state of `game.cpp`: board dimensions (the board is a
square created once), owned snake and food position, scores, flags,
tick interval, apple cadence counter, and the random stream with its
next index (the global `rand()` state). -/
structure Game where
  width : Nat
  height : Nat
  snake : Snake
  food : Position
  score : Nat
  highScore : Nat
  previousScore : Nat
  gameOver : Bool
  paused : Bool
  speedMs : Nat
  appleCount : Nat
  rng : Nat → Nat × Nat
  rnd : Nat

/-- `int sx = width / 2, sy = height / 2; new Snake(sx, sy)`: the
centered snake built by the `Game` constructor and by `restart`. -/
def centerSnake (w h : Nat) : Snake :=
  Snake.create (Int.ofNat (w / 2)) (Int.ofNat (h / 2))

/-- `Game::Game(boardSize)`: square board, snake centered, food spawned
against the initial body; `hs`/`ps` are the scores loaded from
`scores.txt`. -/
def mkGame (size : Nat) (rng : Nat → Nat × Nat) (hs ps fuel : Nat) :
    Option Game :=
  let snake := centerSnake size size
  match Food.spawnAux rng size size snake.body 0 fuel with
  | none => none
  | some (p, k) =>
    some { width := size, height := size, snake := snake, food := p,
           score := 0, highScore := hs, previousScore := ps,
           gameOver := false, paused := false, speedMs := initialSpeedMs,
           appleCount := 0, rng := rng, rnd := k }

/-- `Game::update()`: move the snake; on boundary or self collision set
the game-over flag and return; otherwise, if the head reached the food,
mark growth, bump score and apple count, step the speed down every 4th
apple (clamped at the floor), raise the high score if exceeded, and
respawn the food against the moved body. -/
def Game.update (fuel : Nat) (g : Game) : Option Game :=
  let snake := g.snake.move
  let head := snake.getHead
  if !(isInsideBoundaries g.width g.height head) || snake.checkSelfCollision then
    some { g with snake := snake, gameOver := true }
  else if head = g.food then
    let snake := snake.grow
    let score := g.score + 1
    let ac := g.appleCount + 1
    let sp := if 4 ≤ ac then (Nat.max minSpeedMs (g.speedMs - speedStep), 0)
              else (g.speedMs, ac)
    let highScore := if g.highScore < score then score else g.highScore
    match Food.spawnAux g.rng g.width g.height snake.body g.rnd fuel with
    | none => none
    | some (p, k) =>
      some { g with snake := snake, food := p, score := score,
                    highScore := highScore, speedMs := sp.1,
                    appleCount := sp.2, rnd := k }
  else
    some { g with snake := snake }

/-- The state effect of `Game::handleInput` on a tick: at most one
`setDirection` call from the key read this tick. -/
def applyInput (inp : Option Direction) (g : Game) : Game :=
  match inp with
  | some d => { g with snake := g.snake.setDirection d }
  | none => g

/-- One running-loop tick of `Game::run`: `handleInput(); update();`
(rendering and sleeping have no game-state effect). -/
def Game.tick (inp : Option Direction) (fuel : Nat) (g : Game) :
    Option Game :=
  Game.update fuel (applyInput inp g)

/-- The score bookkeeping at the top of `Game::showGameOver()`:
`previousScore = score; if (score > highScore) highScore = score;`. -/
def Game.showGameOverScores (g : Game) : Game :=
  { g with previousScore := g.score,
           highScore := if g.highScore < g.score then g.score else g.highScore }

/-- `Game::restart()`: zero the score, clear flags, reset speed and
apple cadence, recreate the snake centered on the board, respawn the
food against the fresh body. -/
def Game.restart (fuel : Nat) (g : Game) : Option Game :=
  let snake := centerSnake g.width g.height
  match Food.spawnAux g.rng g.width g.height snake.body g.rnd fuel with
  | none => none
  | some (p, k) =>
    some { g with snake := snake, food := p, score := 0,
                  gameOver := false, paused := false,
                  speedMs := initialSpeedMs, appleCount := 0, rnd := k }

/-- Any position `Food::spawn` returns is strictly interior and misses
the snake body handed to it. -/
theorem spawnAux_valid (rng : Nat → Nat × Nat) (W H : Nat)
    (snakeBody : List Position) (h3w : 3 ≤ W) (h3h : 3 ≤ H) :
    ∀ (fuel k : Nat) (p : Position) (k' : Nat),
      Food.spawnAux rng W H snakeBody k fuel = some (p, k') →
      isInsideBoundaries W H p = true ∧ p ∉ snakeBody := by
  intro fuel
  induction fuel with
  | zero => intro k p k' h; simp [Food.spawnAux] at h
  | succ n ih =>
      intro k p k' h
      unfold Food.spawnAux at h
      by_cases hmem : spawnSample rng k W H ∈ snakeBody
      · rw [if_pos hmem] at h
        exact ih (k + 1) p k' h
      · rw [if_neg hmem] at h
        simp only [Option.some.injEq, Prod.mk.injEq] at h
        obtain ⟨hp, _⟩ := h
        subst hp
        refine ⟨?_, hmem⟩
        have hx : (rng k).1 % (W - 2) < W - 2 := Nat.mod_lt _ (by omega)
        have hy : (rng k).2 % (H - 2) < H - 2 := Nat.mod_lt _ (by omega)
        simp only [isInsideBoundaries, spawnSample, decide_eq_true_eq]
        push_cast
        omega

/-- **C3.** For every board at least 3 cells wide and tall and every
snake body: a position produced by the `Food::spawn` retry loop lies
strictly inside the playable interior (it passes the board's sole
wall test `isInsideBoundaries`) and equals no cell of the snake body
passed in. -/
theorem C3_spawn_valid (rng : Nat → Nat × Nat) (W H : Nat)
    (snakeBody : List Position) (fuel k : Nat) (p : Position) (k' : Nat)
    (h3w : 3 ≤ W) (h3h : 3 ≤ H)
    (hsp : Food.spawnAux rng W H snakeBody k fuel = some (p, k')) :
    isInsideBoundaries W H p = true ∧ p ∉ snakeBody :=
  spawnAux_valid rng W H snakeBody h3w h3h fuel k p k' hsp

/-- Witness for C3 on a concrete 10×10 board and one-cell body: the
first sample (1, 1) is free and valid. -/
theorem C3_spawn_valid_witness :
    isInsideBoundaries 10 10 ⟨1, 1⟩ = true ∧
      (⟨1, 1⟩ : Position) ∉ [(⟨5, 5⟩ : Position)] :=
  C3_spawn_valid (fun _ => (0, 0)) 10 10 [⟨5, 5⟩] 1 0 ⟨1, 1⟩ 1
    (by decide) (by decide) (by decide)

theorem Snake.create_nodup (x y : Int) : (Snake.create x y).body.Nodup := by
  simp [Snake.create, List.nodup_cons, List.mem_cons, Position.mk.injEq]
  omega

theorem Snake.setDirection_body (s : Snake) (d : Direction) :
    (s.setDirection d).body = s.body := by
  unfold Snake.setDirection
  split <;> rfl

theorem Snake.grow_body (s : Snake) : s.grow.body = s.body := rfl

/-- A move whose resulting state passes the self-collision test keeps
the body duplicate-free. -/
theorem Snake.move_nodup {s : Snake} (hnd : s.body.Nodup)
    (hcol : s.move.checkSelfCollision = false) : s.move.body.Nodup := by
  cases hdel : s.next.delta with
  | none =>
      unfold Snake.move
      rw [hdel]
      exact hnd
  | some v =>
      obtain ⟨dx, dy⟩ := v
      unfold Snake.move at hcol ⊢
      rw [hdel] at hcol ⊢
      by_cases hg : s.growing = true
      · simp only [hg, if_true] at hcol ⊢
        simp only [Snake.checkSelfCollision, Snake.getHead, List.headD,
          List.tail, decide_eq_false_iff_not] at hcol
        exact List.nodup_cons.mpr ⟨hcol, hnd⟩
      · simp only [hg] at hcol ⊢
        simp only [Bool.false_eq_true, if_false] at hcol ⊢
        cases hb : s.body with
        | nil => simp [hb]
        | cons a t =>
            have hdl : ((⟨s.getHead.x + dx, s.getHead.y + dy⟩ : Position) ::
                a :: t).dropLast =
                (⟨s.getHead.x + dx, s.getHead.y + dy⟩ : Position) ::
                (a :: t).dropLast := rfl
            rw [hb] at hcol
            rw [hdl] at hcol ⊢
            simp only [Snake.checkSelfCollision, Snake.getHead, List.headD,
              List.tail, decide_eq_false_iff_not] at hcol
            refine List.nodup_cons.mpr ⟨hcol, ?_⟩
            have hsub : (a :: t).dropLast.Sublist (a :: t) :=
              List.dropLast_sublist (a :: t)
            rw [hb] at hnd
            exact hnd.sublist hsub

/-- A move that would introduce a duplicate position, starting from a
duplicate-free body, is caught by the self-collision test. -/
theorem Snake.move_dup_detected {s : Snake} (hnd : s.body.Nodup)
    (hdup : ¬ s.move.body.Nodup) : s.move.checkSelfCollision = true := by
  by_cases h : s.move.checkSelfCollision = true
  · exact h
  · exact absurd (Snake.move_nodup hnd (Bool.not_eq_true _ ▸ h)) hdup

/-- Game states reachable by the running loop of `Game::run` while the
game-over flag stays down: the constructed initial state, one tick
(`handleInput` issuing at most one movement-direction change, then
`update`) that leaves the game running, and `restart`. -/
inductive Game.ReachableRunning : Game → Prop
  | init (size hs ps fuel : Nat) (rng : Nat → Nat × Nat) (g : Game) :
      mkGame size rng hs ps fuel = some g → Game.ReachableRunning g
  | step (g g' : Game) (inp : Option Direction) (fuel : Nat) :
      Game.ReachableRunning g →
      (∀ d, inp = some d → d ≠ Direction.NONE) →
      Game.tick inp fuel g = some g' → g'.gameOver = false →
      Game.ReachableRunning g'
  | restart (g g' : Game) (fuel : Nat) :
      Game.ReachableRunning g → Game.restart fuel g = some g' →
      Game.ReachableRunning g'

theorem applyInput_body (inp : Option Direction) (g : Game) :
    (applyInput inp g).snake.body = g.snake.body := by
  cases inp with
  | none => rfl
  | some d => simp [applyInput, Snake.setDirection_body]

/-- Branch characterization: a tick whose moved head leaves the board
or hits the body sets the game-over flag and touches nothing else. -/
theorem Game.update_collision {fuel : Nat} {g : Game}
    (hc : (!(isInsideBoundaries g.width g.height g.snake.move.getHead) ||
      g.snake.move.checkSelfCollision) = true) :
    Game.update fuel g =
      some { g with snake := g.snake.move, gameOver := true } := by
  simp [Game.update, hc]

/-- Branch characterization: an ordinary tick (no collision, no food)
only moves the snake. -/
theorem Game.update_plain {fuel : Nat} {g : Game}
    (hc : (!(isInsideBoundaries g.width g.height g.snake.move.getHead) ||
      g.snake.move.checkSelfCollision) = false)
    (hf : g.snake.move.getHead ≠ g.food) :
    Game.update fuel g = some { g with snake := g.snake.move } := by
  simp [Game.update, hc, hf]

/-- Branch characterization: an eating tick whose food respawn loop
exhausts its fuel has no result in the embedding. -/
theorem Game.update_eat_none {fuel : Nat} {g : Game}
    (hc : (!(isInsideBoundaries g.width g.height g.snake.move.getHead) ||
      g.snake.move.checkSelfCollision) = false)
    (hf : g.snake.move.getHead = g.food)
    (hsp : Food.spawnAux g.rng g.width g.height g.snake.move.grow.body
      g.rnd fuel = none) :
    Game.update fuel g = none := by
  have h1 : isInsideBoundaries g.width g.height g.food = true := by
    have := (Bool.or_eq_false_iff.mp hc).1
    rw [hf] at this
    simpa using this
  have h2 : g.snake.move.checkSelfCollision = false :=
    (Bool.or_eq_false_iff.mp hc).2
  simp [Game.update, hc, hf, hsp, h1, h2]

/-- Branch characterization: an eating tick marks growth, bumps the
score and apple count, steps the speed on the 4-apple cadence, raises
the high score when exceeded, and moves the food to the spawned
position. -/
theorem Game.update_eat {fuel : Nat} {g : Game} {p : Position} {k : Nat}
    (hc : (!(isInsideBoundaries g.width g.height g.snake.move.getHead) ||
      g.snake.move.checkSelfCollision) = false)
    (hf : g.snake.move.getHead = g.food)
    (hsp : Food.spawnAux g.rng g.width g.height g.snake.move.grow.body
      g.rnd fuel = some (p, k)) :
    Game.update fuel g =
      some { g with
             snake := g.snake.move.grow, food := p,
             score := g.score + 1,
             highScore := (if g.highScore < g.score + 1 then g.score + 1
                           else g.highScore),
             speedMs := (if 4 ≤ g.appleCount + 1
                         then Nat.max minSpeedMs (g.speedMs - speedStep)
                         else g.speedMs),
             appleCount := (if 4 ≤ g.appleCount + 1 then 0
                            else g.appleCount + 1),
             rnd := k } := by
  have h1 : isInsideBoundaries g.width g.height g.food = true := by
    have := (Bool.or_eq_false_iff.mp hc).1
    rw [hf] at this
    simpa using this
  have h2 : g.snake.move.checkSelfCollision = false :=
    (Bool.or_eq_false_iff.mp hc).2
  by_cases hac : 4 ≤ g.appleCount + 1 <;>
    simp [Game.update, hc, hf, hsp, h1, h2, hac]

/-- `Game::update` keeps the body duplicate-free whenever the updated
state is still running. -/
theorem Game.update_nodup {fuel : Nat} {g g' : Game}
    (h : Game.update fuel g = some g') (hgo : g'.gameOver = false)
    (hnd : g.snake.body.Nodup) : g'.snake.body.Nodup := by
  by_cases hc : (!(isInsideBoundaries g.width g.height g.snake.move.getHead) ||
      g.snake.move.checkSelfCollision) = true
  · rw [Game.update_collision hc] at h
    injection h with h
    rw [← h] at hgo
    simp at hgo
  · have hc' := Bool.not_eq_true _ ▸ hc
    have hcol : g.snake.move.checkSelfCollision = false :=
      (Bool.or_eq_false_iff.mp hc').2
    have hmoved : g.snake.move.body.Nodup := Snake.move_nodup hnd hcol
    by_cases hf : g.snake.move.getHead = g.food
    · cases hsp : Food.spawnAux g.rng g.width g.height
          g.snake.move.grow.body g.rnd fuel with
      | none =>
          rw [Game.update_eat_none hc' hf hsp] at h
          exact absurd h (by simp)
      | some pk =>
          obtain ⟨p, k⟩ := pk
          rw [Game.update_eat hc' hf hsp] at h
          injection h with h
          rw [← h]
          simpa [Snake.grow_body] using hmoved
    · rw [Game.update_plain hc' hf] at h
      injection h with h
      rw [← h]
      exact hmoved

/-- Branch characterization of `Game::restart` on a succeeding food
respawn: the full reset state. -/
theorem Game.restart_some {fuel : Nat} {g : Game} {p : Position} {k : Nat}
    (hsp : Food.spawnAux g.rng g.width g.height
      (centerSnake g.width g.height).body g.rnd fuel = some (p, k)) :
    Game.restart fuel g =
      some { g with
             snake := centerSnake g.width g.height,
             food := p, score := 0, gameOver := false, paused := false,
             speedMs := initialSpeedMs, appleCount := 0, rnd := k } := by
  simp [Game.restart, hsp]

theorem Game.restart_none {fuel : Nat} {g : Game}
    (hsp : Food.spawnAux g.rng g.width g.height
      (centerSnake g.width g.height).body g.rnd fuel = none) :
    Game.restart fuel g = none := by
  simp [Game.restart, hsp]

theorem centerSnake_nodup (w h : Nat) : (centerSnake w h).body.Nodup :=
  Snake.create_nodup _ _

/-- Branch characterization of the `Game` constructor on a succeeding
initial food spawn. -/
theorem mkGame_some {size hs ps fuel : Nat} {rng : Nat → Nat × Nat}
    {p : Position} {k : Nat}
    (hsp : Food.spawnAux rng size size
      (centerSnake size size).body 0 fuel = some (p, k)) :
    mkGame size rng hs ps fuel =
      some { width := size, height := size,
             snake := centerSnake size size,
             food := p, score := 0, highScore := hs, previousScore := ps,
             gameOver := false, paused := false, speedMs := initialSpeedMs,
             appleCount := 0, rng := rng, rnd := k } := by
  simp [mkGame, hsp]

theorem mkGame_none {size hs ps fuel : Nat} {rng : Nat → Nat × Nat}
    (hsp : Food.spawnAux rng size size
      (centerSnake size size).body 0 fuel = none) :
    mkGame size rng hs ps fuel = none := by
  simp [mkGame, hsp]

/-- Restarting always yields a duplicate-free body. -/
theorem Game.restart_nodup {fuel : Nat} {g g' : Game}
    (h : Game.restart fuel g = some g') : g'.snake.body.Nodup := by
  cases hsp : Food.spawnAux g.rng g.width g.height
      (centerSnake g.width g.height).body g.rnd fuel with
  | none => rw [Game.restart_none hsp] at h; exact absurd h (by simp)
  | some pk =>
      obtain ⟨p, k⟩ := pk
      rw [Game.restart_some hsp] at h
      injection h with h
      rw [← h]
      exact centerSnake_nodup _ _

/-- Every reachable running state has a duplicate-free snake body. -/
theorem Game.reachable_nodup {g : Game} (hg : Game.ReachableRunning g) :
    g.snake.body.Nodup := by
  induction hg with
  | init size hs ps fuel rng g h =>
      cases hsp : Food.spawnAux rng size size
          (centerSnake size size).body 0 fuel with
      | none => rw [mkGame_none hsp] at h; exact absurd h (by simp)
      | some pk =>
          obtain ⟨p, k⟩ := pk
          rw [mkGame_some hsp] at h
          injection h with h
          rw [← h]
          exact centerSnake_nodup _ _
  | step g0 g' inp fuel _ _ htick hgo ih =>
      have hbody : (applyInput inp g0).snake.body.Nodup := by
        rw [applyInput_body]; exact ih
      exact Game.update_nodup htick hgo hbody
  | restart g0 g' fuel _ hres _ => exact Game.restart_nodup hres

/-- **C4.** In every state the running loop can reach, the snake body
has no two equal positions; and whenever the next tick's move would
introduce a duplicate head position, `checkSelfCollision` reports it
and that same tick's `update` raises the game-over flag — never one
tick later. -/
theorem C4_body_nodup_and_same_tick_detection (g : Game)
    (hg : Game.ReachableRunning g) :
    g.snake.body.Nodup ∧
    ∀ (inp : Option Direction) (fuel : Nat),
      ¬ (applyInput inp g).snake.move.body.Nodup →
      (applyInput inp g).snake.move.checkSelfCollision = true ∧
      ∃ g', Game.tick inp fuel g = some g' ∧ g'.gameOver = true := by
  have hnd := Game.reachable_nodup hg
  refine ⟨hnd, ?_⟩
  intro inp fuel hdup
  have hnd' : (applyInput inp g).snake.body.Nodup := by
    rw [applyInput_body]; exact hnd
  have hcol : (applyInput inp g).snake.move.checkSelfCollision = true :=
    Snake.move_dup_detected hnd' hdup
  refine ⟨hcol, ?_⟩
  have hc : (!(isInsideBoundaries (applyInput inp g).width
      (applyInput inp g).height (applyInput inp g).snake.move.getHead) ||
      (applyInput inp g).snake.move.checkSelfCollision) = true := by
    rw [hcol]
    simp
  exact ⟨_, Game.update_collision hc, rfl⟩

/-- The all-zero sample stream used by concrete witnesses. -/
def rngZero : Nat → Nat × Nat := fun _ => (0, 0)

/-- The concrete initial state `Game::Game(10)` produces under
`rngZero` (food lands on (1, 1), one sample consumed). -/
def c4Game : Game :=
  { width := 10, height := 10, snake := Snake.create 5 5, food := ⟨1, 1⟩,
    score := 0, highScore := 0, previousScore := 0, gameOver := false,
    paused := false, speedMs := initialSpeedMs, appleCount := 0,
    rng := rngZero, rnd := 1 }

/-- Witness for C4 at the concrete initial state of a 10×10 game. -/
theorem C4_body_nodup_and_same_tick_detection_witness :
    c4Game.snake.body.Nodup :=
  (C4_body_nodup_and_same_tick_detection c4Game
    (Game.ReachableRunning.init 10 0 0 5 rngZero c4Game rfl)).1

/-- **C5.** `isInsideBoundaries(p)` holds exactly when `p` is strictly
inside the border ring; and a tick whose move lands the head on `x = 0`
raises the game-over flag on that same tick with the score untouched,
after which the game-over screen records `previousScore = score` and
raises the high score only when the score exceeds it. -/
theorem C5_boundary_test_and_left_wall (W H : Nat) (p : Position)
    (g : Game) (fuel : Nat) (hx : g.snake.move.getHead.x = 0) :
    (isInsideBoundaries W H p = true ↔
      (0 < p.x ∧ p.x < (W : Int) - 1 ∧ 0 < p.y ∧ p.y < (H : Int) - 1)) ∧
    ∃ g', Game.update fuel g = some g' ∧ g'.gameOver = true ∧
      g'.score = g.score ∧
      g'.showGameOverScores.previousScore = g'.score ∧
      (g'.highScore < g'.score → g'.showGameOverScores.highScore = g'.score) ∧
      (¬ g'.highScore < g'.score →
        g'.showGameOverScores.highScore = g'.highScore) := by
  constructor
  · simp [isInsideBoundaries]
  · have hin : isInsideBoundaries g.width g.height g.snake.move.getHead
        = false := by
      simp only [isInsideBoundaries, decide_eq_false_iff_not]
      intro hcontra
      rw [hx] at hcontra
      exact absurd hcontra.1 (by omega)
    have hc : (!(isInsideBoundaries g.width g.height g.snake.move.getHead) ||
        g.snake.move.checkSelfCollision) = true := by
      rw [hin]
      simp
    refine ⟨_, Game.update_collision hc, rfl, rfl, rfl, ?_, ?_⟩
    · intro hlt
      simp [Game.showGameOverScores, hlt]
    · intro hlt
      simp [Game.showGameOverScores, hlt]

/-- Concrete state for the C5 witness: snake one cell from the left
wall heading left, score 3 exceeding the stored high score 2. -/
def c5Game : Game :=
  { width := 10, height := 10,
    snake := { body := [⟨1, 5⟩, ⟨2, 5⟩, ⟨3, 5⟩],
               current := Direction.LEFT, next := Direction.LEFT,
               growing := false },
    food := ⟨8, 8⟩, score := 3, highScore := 2, previousScore := 0,
    gameOver := false, paused := false, speedMs := initialSpeedMs,
    appleCount := 0, rng := rngZero, rnd := 1 }

/-- Witness for C5: driving the snake into the left border flags game
over on that tick with the score intact. -/
theorem C5_boundary_test_and_left_wall_witness :
    ∃ g', Game.update 1 c5Game = some g' ∧ g'.gameOver = true ∧
      g'.score = c5Game.score ∧
      g'.showGameOverScores.previousScore = g'.score ∧
      (g'.highScore < g'.score → g'.showGameOverScores.highScore = g'.score) ∧
      (¬ g'.highScore < g'.score →
        g'.showGameOverScores.highScore = g'.highScore) :=
  (C5_boundary_test_and_left_wall 10 10 ⟨0, 5⟩ c5Game 1 rfl).2

/-- **C6.** On a running tick whose moved head equals the food: growth
is marked pending, the score is incremented by exactly one, the high
score is raised exactly when the new score exceeds it, the food moves
to the freshly spawned position, the tick interval steps down by
`speedStep` (clamped at `minSpeedMs`) exactly on every 4th apple, and
it never drops below the floor. -/
theorem C6_eat_tick (g : Game) (fuel : Nat) (p : Position) (k : Nat)
    (hin : isInsideBoundaries g.width g.height g.snake.move.getHead = true)
    (hsc : g.snake.move.checkSelfCollision = false)
    (hf : g.snake.move.getHead = g.food)
    (hsp : Food.spawnAux g.rng g.width g.height g.snake.move.grow.body
      g.rnd fuel = some (p, k)) :
    ∃ g', Game.update fuel g = some g' ∧
      g'.snake.growing = true ∧
      g'.score = g.score + 1 ∧
      (g.highScore < g.score + 1 → g'.highScore = g.score + 1) ∧
      (¬ g.highScore < g.score + 1 → g'.highScore = g.highScore) ∧
      g'.food = p ∧
      (4 ≤ g.appleCount + 1 →
        g'.speedMs = Nat.max minSpeedMs (g.speedMs - speedStep) ∧
        g'.appleCount = 0) ∧
      (¬ 4 ≤ g.appleCount + 1 →
        g'.speedMs = g.speedMs ∧ g'.appleCount = g.appleCount + 1) ∧
      (minSpeedMs ≤ g.speedMs → minSpeedMs ≤ g'.speedMs) := by
  have hc : (!(isInsideBoundaries g.width g.height g.snake.move.getHead) ||
      g.snake.move.checkSelfCollision) = false := by
    rw [hin, hsc]
    rfl
  refine ⟨_, Game.update_eat hc hf hsp, rfl, rfl, ?_, ?_, rfl, ?_, ?_, ?_⟩
  · intro hlt
    simp [hlt]
  · intro hlt
    simp [hlt]
  · intro hac
    simp [hac]
  · intro hac
    simp [hac]
  · intro hfloor
    by_cases hac : 4 ≤ g.appleCount + 1
    · simp [hac]
    · simpa [hac] using hfloor

/-- Concrete state for the C6 witness: head one cell left of the food,
heading right. -/
def c6Game : Game :=
  { width := 10, height := 10, snake := Snake.create 5 5, food := ⟨6, 5⟩,
    score := 0, highScore := 0, previousScore := 0, gameOver := false,
    paused := false, speedMs := initialSpeedMs, appleCount := 0,
    rng := rngZero, rnd := 1 }

/-- Witness for C6: eating the food at (6, 5) bumps the score to 1,
raises the high score, and respawns the food at (1, 1). -/
theorem C6_eat_tick_witness :
    ∃ g', Game.update 1 c6Game = some g' ∧
      g'.snake.growing = true ∧
      g'.score = c6Game.score + 1 ∧
      (c6Game.highScore < c6Game.score + 1 →
        g'.highScore = c6Game.score + 1) ∧
      (¬ c6Game.highScore < c6Game.score + 1 →
        g'.highScore = c6Game.highScore) ∧
      g'.food = ⟨1, 1⟩ ∧
      (4 ≤ c6Game.appleCount + 1 →
        g'.speedMs = Nat.max minSpeedMs (c6Game.speedMs - speedStep) ∧
        g'.appleCount = 0) ∧
      (¬ 4 ≤ c6Game.appleCount + 1 →
        g'.speedMs = c6Game.speedMs ∧
        g'.appleCount = c6Game.appleCount + 1) ∧
      (minSpeedMs ≤ c6Game.speedMs → minSpeedMs ≤ g'.speedMs) :=
  C6_eat_tick c6Game 1 ⟨1, 1⟩ 2 (by decide) (by decide) (by decide)
    (by decide)

/-- **C7.** Restart from game over: when the fresh food spawn
succeeds, the resulting state has a snake of length exactly 3 with its
head centered on the board, score 0, the tick interval back at its
initial value, a food position that is strictly interior and off the
new body, and the game-over flag down (the loop resumes running). -/
theorem C7_restart_reset (g : Game) (fuel : Nat) (p : Position) (k : Nat)
    (h3w : 3 ≤ g.width) (h3h : 3 ≤ g.height)
    (hsp : Food.spawnAux g.rng g.width g.height
      (centerSnake g.width g.height).body g.rnd fuel = some (p, k)) :
    ∃ g', Game.restart fuel g = some g' ∧
      g'.snake.body.length = 3 ∧
      g'.snake.getHead =
        ⟨Int.ofNat (g.width / 2), Int.ofNat (g.height / 2)⟩ ∧
      g'.score = 0 ∧ g'.speedMs = initialSpeedMs ∧ g'.gameOver = false ∧
      isInsideBoundaries g.width g.height g'.food = true ∧
      g'.food ∉ g'.snake.body := by
  obtain ⟨hin, hmem⟩ := spawnAux_valid g.rng g.width g.height
    (centerSnake g.width g.height).body h3w h3h fuel g.rnd p k hsp
  exact ⟨_, Game.restart_some hsp, rfl, rfl, rfl, rfl, rfl, hin, hmem⟩

/-- Concrete game-over state for the C7 witness. -/
def c7Game : Game :=
  { width := 10, height := 10,
    snake := { body := [⟨0, 5⟩, ⟨1, 5⟩, ⟨2, 5⟩],
               current := Direction.LEFT, next := Direction.LEFT,
               growing := false },
    food := ⟨8, 8⟩, score := 7, highScore := 7, previousScore := 7,
    gameOver := true, paused := false, speedMs := 100, appleCount := 2,
    rng := rngZero, rnd := 5 }

/-- Witness for C7: restarting the concrete crashed game yields the
reset state with a centered length-3 snake and fresh valid food. -/
theorem C7_restart_reset_witness :
    ∃ g', Game.restart 1 c7Game = some g' ∧
      g'.snake.body.length = 3 ∧
      g'.snake.getHead = ⟨Int.ofNat (c7Game.width / 2),
        Int.ofNat (c7Game.height / 2)⟩ ∧
      g'.score = 0 ∧ g'.speedMs = initialSpeedMs ∧ g'.gameOver = false ∧
      isInsideBoundaries c7Game.width c7Game.height g'.food = true ∧
      g'.food ∉ g'.snake.body :=
  C7_restart_reset c7Game 1 ⟨1, 1⟩ 6 (by decide) (by decide) (by decide)

/-- **C10.** A tick on which the collision test fires sets the
game-over flag and returns before any other mutation: score, apple
count, tick interval, high score, previous score, and the food
position all keep their pre-tick values. -/
theorem C10_collision_mutates_nothing_else (g : Game) (fuel : Nat)
    (hc : (!(isInsideBoundaries g.width g.height g.snake.move.getHead) ||
      g.snake.move.checkSelfCollision) = true) :
    ∃ g', Game.update fuel g = some g' ∧ g'.gameOver = true ∧
      g'.score = g.score ∧ g'.appleCount = g.appleCount ∧
      g'.speedMs = g.speedMs ∧ g'.highScore = g.highScore ∧
      g'.previousScore = g.previousScore ∧ g'.food = g.food :=
  ⟨_, Game.update_collision hc, rfl, rfl, rfl, rfl, rfl, rfl, rfl⟩

/-- Concrete state for the C10 witness: the moved head hits the left
wall. -/
def c10Game : Game :=
  { width := 10, height := 10,
    snake := { body := [⟨1, 4⟩, ⟨2, 4⟩, ⟨3, 4⟩],
               current := Direction.LEFT, next := Direction.LEFT,
               growing := false },
    food := ⟨7, 7⟩, score := 5, highScore := 9, previousScore := 1,
    gameOver := false, paused := false, speedMs := 124, appleCount := 3,
    rng := rngZero, rnd := 4 }

/-- Witness for C10 at the concrete wall-collision state. -/
theorem C10_collision_mutates_nothing_else_witness :
    ∃ g', Game.update 1 c10Game = some g' ∧ g'.gameOver = true ∧
      g'.score = c10Game.score ∧ g'.appleCount = c10Game.appleCount ∧
      g'.speedMs = c10Game.speedMs ∧ g'.highScore = c10Game.highScore ∧
      g'.previousScore = c10Game.previousScore ∧ g'.food = c10Game.food :=
  C10_collision_mutates_nothing_else c10Game 1 (by decide)

/-- If some sample index at or beyond the start index yields a
position off the snake body, the spawn loop succeeds within
`n - k + 1` attempts. -/
theorem spawnAux_of_free_sample (rng : Nat → Nat × Nat) (W H : Nat)
    (body : List Position) :
    ∀ (j k n : Nat), n - k ≤ j → k ≤ n →
      spawnSample rng n W H ∉ body →
      ∃ p k', Food.spawnAux rng W H body k (j + 1) = some (p, k') := by
  intro j
  induction j with
  | zero =>
      intro k n hj hk hfree
      have hkn : k = n := by omega
      subst hkn
      unfold Food.spawnAux
      rw [if_neg hfree]
      exact ⟨_, _, rfl⟩
  | succ j ih =>
      intro k n hj hk hfree
      unfold Food.spawnAux
      by_cases hmem : spawnSample rng k W H ∈ body
      · rw [if_pos hmem]
        have hkn : k ≠ n := by
          intro he
          rw [he] at hmem
          exact hfree hmem
        exact ih (k + 1) n (by omega) (by omega) hfree
      · rw [if_neg hmem]
        exact ⟨_, _, rfl⟩

/-- **C9.** `Food::spawn` terminates whenever a free interior cell
exists, for every random stream that is fair (every interior sample
value keeps occurring at indices past the current one): the retry
loop reaches, after finitely many iterations, a position that is
strictly interior and off the snake body.  No retry bound is imposed:
the needed fuel depends only on where the stream first hits the free
cell. -/
theorem C9_spawn_terminates (rng : Nat → Nat × Nat) (W H k : Nat)
    (body : List Position) (h3w : 3 ≤ W) (h3h : 3 ≤ H)
    (hfree : ∃ a b : Nat, a < W - 2 ∧ b < H - 2 ∧
      (⟨(a + 1 : Nat), (b + 1 : Nat)⟩ : Position) ∉ body)
    (hfair : ∀ a b : Nat, a < W - 2 → b < H - 2 →
      ∃ n, k ≤ n ∧ (rng n).1 % (W - 2) = a ∧ (rng n).2 % (H - 2) = b) :
    ∃ fuel p k', Food.spawnAux rng W H body k fuel = some (p, k') ∧
      isInsideBoundaries W H p = true ∧ p ∉ body := by
  obtain ⟨a, b, ha, hb, hfreecell⟩ := hfree
  obtain ⟨n, hkn, hxa, hyb⟩ := hfair a b ha hb
  have hsample : spawnSample rng n W H = ⟨(a + 1 : Nat), (b + 1 : Nat)⟩ := by
    simp [spawnSample, hxa, hyb]
  have hnfree : spawnSample rng n W H ∉ body := by
    rw [hsample]
    exact hfreecell
  obtain ⟨p, k', hp⟩ := spawnAux_of_free_sample rng W H body
    (n - k) k n (le_refl _) hkn hnfree
  obtain ⟨hin, hmem⟩ := spawnAux_valid rng W H body h3w h3h
    (n - k + 1) k p k' hp
  exact ⟨n - k + 1, p, k', hp, hin, hmem⟩

/-- A fair sample stream for the C9 witness: index `a + 8 * b` yields
the sample pair `(a, b)` modulo 8. -/
def rngFair : Nat → Nat × Nat := fun n => (n % 8, n / 8)

/-- Witness for C9 on a concrete 10×10 board with one occupied cell:
the spawn loop terminates with a valid interior position. -/
theorem C9_spawn_terminates_witness :
    ∃ fuel p k', Food.spawnAux rngFair 10 10 [⟨2, 2⟩] 0 fuel
        = some (p, k') ∧
      isInsideBoundaries 10 10 p = true ∧ p ∉ [(⟨2, 2⟩ : Position)] :=
  C9_spawn_terminates rngFair 10 10 0 [⟨2, 2⟩] (by decide) (by decide)
    ⟨0, 0, by decide, by decide, by decide⟩
    (fun a b ha hb => ⟨a + 8 * b, Nat.zero_le _,
      by simp only [rngFair]; omega, by simp only [rngFair]; omega⟩)

/-!
Embedding of the ncurses variant `src/unnamed/part_000`, the one
program of the repository with a "waiting for first input" state.
-/

/-- The `Snake` of part_000: body deque plus a velocity vector
`(dx, dy)`, initially `(1, 0)`. -/
structure PSnake where
  body : List Position
  dx : Int
  dy : Int

/-- part_000 `Snake::Snake(x, y)`. -/
def PSnake.create (x y : Int) : PSnake :=
  { body := [⟨x, y⟩, ⟨x - 1, y⟩, ⟨x - 2, y⟩], dx := 1, dy := 0 }

/-- The key classes `Snake::setDir` distinguishes (arrow/letter pairs
normalized; any other key is `other`). -/
inductive PKey where
  | up
  | down
  | left
  | right
  | other
deriving DecidableEq

/-- part_000 `Snake::setDir(key)`: vertical turns allowed only when
`dy == 0`, horizontal only when `dx == 0`; other keys ignored. -/
def PSnake.setDir (s : PSnake) (key : PKey) : PSnake :=
  match key with
  | PKey.up => if s.dy = 0 then { s with dx := 0, dy := -1 } else s
  | PKey.down => if s.dy = 0 then { s with dx := 0, dy := 1 } else s
  | PKey.left => if s.dx = 0 then { s with dx := -1, dy := 0 } else s
  | PKey.right => if s.dx = 0 then { s with dx := 1, dy := 0 } else s
  | PKey.other => s

/-- part_000 `Snake::move(grow)`: push the translated head, pop the
tail unless growing, return the new head. -/
def PSnake.advance (s : PSnake) (grow : Bool) : PSnake × Position :=
  let head := s.body.headD ⟨0, 0⟩
  let newHead : Position := ⟨head.x + s.dx, head.y + s.dy⟩
  ({ s with body := if grow then newHead :: s.body
                    else (newHead :: s.body).dropLast }, newHead)

/-- part_000 `Snake::collided(W, H)`: off the `[0, W) × [0, H)` grid,
or head equals a later body cell. -/
def PSnake.collided (s : PSnake) (W H : Nat) : Bool :=
  let head := s.body.headD ⟨0, 0⟩
  decide (head.x < 0 ∨ (W : Int) ≤ head.x ∨ head.y < 0 ∨ (H : Int) ≤ head.y)
    || decide (head ∈ s.body.tail)

/-- One sampling attempt of part_000 `Food::spawn`: `rand() % W`,
`rand() % H` (the whole grid is playable in this variant). -/
def pSpawnSample (rng : Nat → Nat × Nat) (k W H : Nat) : Position :=
  ⟨((rng k).1 % W : Nat), ((rng k).2 % H : Nat)⟩

/-- The retry loop of part_000 `Food::spawn`, fuelled like
`Food.spawnAux`. -/
def PFood.spawnAux (rng : Nat → Nat × Nat) (W H : Nat)
    (snakeBody : List Position) : Nat → Nat → Option (Position × Nat)
  | _, 0 => none
  | k, fuel + 1 =>
    let p := pSpawnSample rng k W H
    if p ∈ snakeBody then PFood.spawnAux rng W H snakeBody (k + 1) fuel
    else some (p, k + 1)

/-- The `Game` state of part_000, including its `waiting` flag. -/
structure PGame where
  W : Nat
  H : Nat
  snake : PSnake
  food : Position
  score : Nat
  gameOver : Bool
  waiting : Bool
  rng : Nat → Nat × Nat
  rnd : Nat

/-- part_000 `Game::update()`: move; if the head reached the food,
move again growing, bump the score and respawn; then test collision
and raise the game-over flag. -/
def PGame.update (fuel : Nat) (g : PGame) : Option PGame :=
  let m := g.snake.advance false
  if m.2 = g.food then
    let m2 := m.1.advance true
    match PFood.spawnAux g.rng g.W g.H m2.1.body g.rnd fuel with
    | none => none
    | some (p, k) =>
      let g1 : PGame := { g with snake := m2.1, food := p,
                                 score := g.score + 1, rnd := k }
      if g1.snake.collided g1.W g1.H then some { g1 with gameOver := true }
      else some g1
  else
    let g1 : PGame := { g with snake := m.1 }
    if g1.snake.collided g1.W g1.H then some { g1 with gameOver := true }
    else some g1

/-- One iteration of the part_000 main loop on the game state (drawing
elided): while not game over, a waiting iteration only consumes the
first key (any key) and clears `waiting` without calling `update`;
otherwise the key is applied and `update` runs.  The game-over branch
leaves the state to its own input loop. -/
def PGame.loopIter (fuel : Nat) (g : PGame) (key : Option PKey) :
    Option PGame :=
  if g.gameOver then some g
  else if g.waiting then
    some (match key with
          | some kk => { g with snake := g.snake.setDir kk, waiting := false }
          | none => g)
  else
    PGame.update fuel { g with snake := (match key with
                                         | some kk => g.snake.setDir kk
                                         | none => g.snake) }

theorem PSnake.setDir_body (s : PSnake) (k : PKey) :
    (s.setDir k).body = s.body := by
  cases k with
  | up => by_cases h : s.dy = 0 <;> simp [PSnake.setDir, h]
  | down => by_cases h : s.dy = 0 <;> simp [PSnake.setDir, h]
  | left => by_cases h : s.dx = 0 <;> simp [PSnake.setDir, h]
  | right => by_cases h : s.dx = 0 <;> simp [PSnake.setDir, h]
  | other => rfl

/-- Concrete initial state of the main game (`game.cpp`) on a 10×10
board under the all-zero sample stream, used to refute the claim that
the snake holds still before the first directional key. -/
def c8Game : Game :=
  { width := 10, height := 10, snake := Snake.create 5 5, food := ⟨1, 1⟩,
    score := 0, highScore := 0, previousScore := 0, gameOver := false,
    paused := false, speedMs := initialSpeedMs, appleCount := 0,
    rng := rngZero, rnd := 1 }

/-- **C8, counterexample.** In the main game (`game.cpp`) there is no
awaiting-first-input state: from the freshly constructed 10×10 game,
one tick with no key pressed already displaces the head one cell to
the right (the constructor heading), so the snake moves before any
directional key is observed. -/
theorem C8_counterexample_main_game_moves_immediately :
    mkGame 10 rngZero 0 0 5 = some c8Game ∧
    c8Game.snake.getHead = ⟨5, 5⟩ ∧
    ∃ g', Game.tick none 1 c8Game = some g' ∧
      g'.snake.getHead = ⟨6, 5⟩ ∧
      g'.snake.getHead ≠ c8Game.snake.getHead := by
  refine ⟨rfl, rfl, ?_⟩
  exact ⟨_, rfl, rfl, by decide⟩

/-- **C8, amended.** In the ncurses variant (`part_000`), as long as
the `waiting` flag is set (and the game is not over) a loop iteration
never calls `update`: the snake body is unchanged whatever key arrives;
`waiting` stays set on iterations with no key and is cleared by the
first key consumed (directional or not), movement starting only on the
following iteration.  The main game (`game.cpp`) has no such state and
starts moving on the first tick. -/
theorem C8_waiting_iteration_never_moves (g : PGame) (key : Option PKey)
    (fuel : Nat) (hgo : g.gameOver = false) (hw : g.waiting = true) :
    ∃ g', PGame.loopIter fuel g key = some g' ∧
      g'.snake.body = g.snake.body ∧
      (key = none → g'.waiting = true) ∧
      (∀ kk, key = some kk → g'.waiting = false) := by
  cases key with
  | none =>
      refine ⟨g, ?_, rfl, fun _ => hw, ?_⟩
      · simp [PGame.loopIter, hgo, hw]
      · intro kk hkk
        cases hkk
  | some kk =>
      refine ⟨{ g with snake := g.snake.setDir kk, waiting := false },
        ?_, ?_, ?_, ?_⟩
      · simp [PGame.loopIter, hgo, hw]
      · exact PSnake.setDir_body g.snake kk
      · intro hkk
        cases hkk
      · intro kk2 hkk
        rfl

/-- Concrete part_000 state for the C8 witness: the `Game(40, 20)`
initial snake, still waiting. -/
def c8PGame : PGame :=
  { W := 40, H := 20, snake := PSnake.create 10 10, food := ⟨0, 0⟩,
    score := 0, gameOver := false, waiting := true, rng := rngZero,
    rnd := 1 }

/-- Witness for the amended C8 at a concrete waiting state and a
concrete key. -/
theorem C8_waiting_iteration_never_moves_witness :
    ∃ g', PGame.loopIter 1 c8PGame (some PKey.up) = some g' ∧
      g'.snake.body = c8PGame.snake.body ∧
      (some PKey.up = none → g'.waiting = true) ∧
      (∀ kk, some PKey.up = some kk → g'.waiting = false) :=
  C8_waiting_iteration_never_moves c8PGame (some PKey.up) 1 rfl rfl

end SnakeX
